import Mathlib

/-!
Shallow embedding of `pyfastocloud_models/subscriber/entry.py`.

Modelling conventions:
* MongoDB `ObjectId`s are modelled as natural numbers (`OID`).
* A mongoengine `ReferenceField` is modelled by the id of the referenced
  document; `EmbeddedDocumentList.filter(sid=stream)` therefore compares
  the stored reference with the id of the given stream, which is the
  comparison mongoengine performs on the persistent representation.
* The document store is explicit: a `World` carries the in-memory
  `Subscriber` document, the persisted copy of that document (`stored`,
  `none` when the document was never saved), the `IStream` catalog
  collection, and a counter of `save()` calls.  `save()` on the document
  itself, on `self.devices` and on `self.streams` all persist the whole
  parent document (mongoengine `EmbeddedDocumentList.save` saves the
  ancestor document), so all three are modelled by the single `World.save`.
* `datetime` values are opaque numbers (they never influence control flow
  in the embedded operations).
* The two manifest-entry generators of `IStream`
  (`generate_playlist(False)` and
  `generate_device_playlist(sid, password, did, lb, False)`) live in
  `pyfastocloud_models/stream/entry.py`, which is outside the sources at
  hand; they are opaque external collaborators here, passed as function
  parameters keyed by the referenced stream's id.
-/

/-- `bson.objectid.ObjectId`, modelled as a natural number. -/
abbrev OID := Nat

/-!
The password hasher.  `make_md5_hash_from_password` feeds
`password.encode()` (UTF-8) to `hashlib.md5` and returns `hexdigest()`.
Below is the MD5 algorithm of RFC 1321 over byte lists, with 32-bit words
as naturals reduced mod `2^32`, and a UTF-8 encoder for the `encode()`
step.
-/

/-- Truncation to a 32-bit word. -/
def w32 (n : Nat) : Nat := n % 4294967296

/-- 32-bit complement (exact for inputs below `2^32`). -/
def w32not (n : Nat) : Nat := 4294967295 - n

/-- 32-bit left rotation by `n` places (exact for inputs below `2^32`). -/
def rotl32 (x n : Nat) : Nat := (x * 2 ^ n + x / 2 ^ (32 - n)) % 4294967296

/-- The 64 MD5 sine-derived constants `K`. -/
def md5K : List Nat :=
  [0xd76aa478, 0xe8c7b756, 0x242070db, 0xc1bdceee,
   0xf57c0faf, 0x4787c62a, 0xa8304613, 0xfd469501,
   0x698098d8, 0x8b44f7af, 0xffff5bb1, 0x895cd7be,
   0x6b901122, 0xfd987193, 0xa679438e, 0x49b40821,
   0xf61e2562, 0xc040b340, 0x265e5a51, 0xe9b6c7aa,
   0xd62f105d, 0x02441453, 0xd8a1e681, 0xe7d3fbc8,
   0x21e1cde6, 0xc33707d6, 0xf4d50d87, 0x455a14ed,
   0xa9e3e905, 0xfcefa3f8, 0x676f02d9, 0x8d2a4c8a,
   0xfffa3942, 0x8771f681, 0x6d9d6122, 0xfde5380c,
   0xa4beea44, 0x4bdecfa9, 0xf6bb4b60, 0xbebfbc70,
   0x289b7ec6, 0xeaa127fa, 0xd4ef3085, 0x04881d05,
   0xd9d4d039, 0xe6db99e5, 0x1fa27cf8, 0xc4ac5665,
   0xf4292244, 0x432aff97, 0xab9423a7, 0xfc93a039,
   0x655b59c3, 0x8f0ccc92, 0xffeff47d, 0x85845dd1,
   0x6fa87e4f, 0xfe2ce6e0, 0xa3014314, 0x4e0811a1,
   0xf7537e82, 0xbd3af235, 0x2ad7d2bb, 0xeb86d391]

/-- The 64 MD5 per-round left-rotation amounts `s`. -/
def md5S : List Nat :=
  [7, 12, 17, 22, 7, 12, 17, 22, 7, 12, 17, 22, 7, 12, 17, 22,
   5, 9, 14, 20, 5, 9, 14, 20, 5, 9, 14, 20, 5, 9, 14, 20,
   4, 11, 16, 23, 4, 11, 16, 23, 4, 11, 16, 23, 4, 11, 16, 23,
   6, 10, 15, 21, 6, 10, 15, 21, 6, 10, 15, 21, 6, 10, 15, 21]

/-- The `k` least-significant bytes of `n`, little-endian. -/
def toLEBytes (n : Nat) : Nat → List Nat
  | 0 => []
  | k + 1 => n % 256 :: toLEBytes (n / 256) k

/-- MD5 padding: append `0x80`, zero-fill to 56 mod 64, then the original
bit length as 8 little-endian bytes. -/
def md5pad (msg : List Nat) : List Nat :=
  msg ++ [0x80] ++ List.replicate ((119 - msg.length % 64) % 64) 0 ++
    toLEBytes (msg.length * 8) 8

/-- Little-endian 32-bit word number `g` of a 64-byte block. -/
def wordAt (block : List Nat) (g : Nat) : Nat :=
  block.getD (4 * g) 0 + 256 * block.getD (4 * g + 1) 0 +
    65536 * block.getD (4 * g + 2) 0 + 16777216 * block.getD (4 * g + 3) 0

/-- MD5 initial state `(A, B, C, D)`. -/
def md5init : Nat × Nat × Nat × Nat := (0x67452301, 0xefcdab89, 0x98badcfe, 0x10325476)

/-- One of the 64 MD5 operations on a block. -/
def md5round (block : List Nat) (abcd : Nat × Nat × Nat × Nat) (i : Nat) :
    Nat × Nat × Nat × Nat :=
  let a := abcd.1
  let b := abcd.2.1
  let c := abcd.2.2.1
  let d := abcd.2.2.2
  let f :=
    if i < 16 then (b &&& c) ||| ((w32not b) &&& d)
    else if i < 32 then (d &&& b) ||| ((w32not d) &&& c)
    else if i < 48 then b ^^^ c ^^^ d
    else c ^^^ (b ||| (w32not d))
  let g :=
    if i < 16 then i
    else if i < 32 then (5 * i + 1) % 16
    else if i < 48 then (3 * i + 5) % 16
    else (7 * i) % 16
  let f1 := w32 (f + a + md5K.getD i 0 + wordAt block g)
  (d, w32 (b + rotl32 f1 (md5S.getD i 0)), b, c)

/-- The MD5 compression function for one 64-byte block. -/
def md5compress (st : Nat × Nat × Nat × Nat) (block : List Nat) : Nat × Nat × Nat × Nat :=
  let r := (List.range 64).foldl (md5round block) st
  (w32 (st.1 + r.1), w32 (st.2.1 + r.2.1), w32 (st.2.2.1 + r.2.2.1), w32 (st.2.2.2 + r.2.2.2))

/-- The MD5 state after absorbing all blocks of the padded message. -/
def md5finalState (msg : List Nat) : Nat × Nat × Nat × Nat :=
  let padded := md5pad msg
  (List.range (padded.length / 64)).foldl
    (fun st i => md5compress st ((padded.drop (64 * i)).take 64)) md5init

/-- The 16-byte MD5 digest of a byte list. -/
def md5bytes (msg : List Nat) : List Nat :=
  let st := md5finalState msg
  toLEBytes st.1 4 ++ toLEBytes st.2.1 4 ++ toLEBytes st.2.2.1 4 ++ toLEBytes st.2.2.2 4

/-- The sixteen lowercase hexadecimal digits. -/
def hexChars : List Char := "0123456789abcdef".data

/-- The lowercase hexadecimal digit of `n % 16`. -/
def hexDigit (n : Nat) : Char := hexChars.getD (n % 16) '0'

/-- Lowercase-hexadecimal rendering of a byte list (`hexdigest()`). -/
def bytesToHex : List Nat → List Char
  | [] => []
  | b :: rest => hexDigit (b / 16) :: hexDigit (b % 16) :: bytesToHex rest

/-- UTF-8 encoding of one character (Python `str.encode()`). -/
def utf8EncodeChar (c : Char) : List Nat :=
  let n := c.toNat
  if n < 128 then [n]
  else if n < 2048 then [192 + n / 64, 128 + n % 64]
  else if n < 65536 then [224 + n / 4096, 128 + (n / 64) % 64, 128 + n % 64]
  else [240 + n / 262144, 128 + (n / 4096) % 64, 128 + (n / 64) % 64, 128 + n % 64]

/-- UTF-8 encoding of a character list. -/
def utf8Encode (s : List Char) : List Nat :=
  (s.map utf8EncodeChar).flatten

/-- Status enum of `Device` (`NOT_ACTIVE = 0, ACTIVE = 1, BANNED = 2`). -/
inductive Device.Status where
  | NOT_ACTIVE
  | ACTIVE
  | BANNED
deriving DecidableEq, Repr

/-- Embedded document `Device`: id, creation date, status, name. -/
structure Device where
  id : OID
  created_date : Nat := 0
  status : Device.Status := Device.Status.NOT_ACTIVE
  name : String := "Device"
deriving DecidableEq, Repr

/-- External catalog entity `IStream`; only its identity matters here. -/
structure IStream where
  id : OID
deriving DecidableEq, Repr

/-- Embedded document `UserStream`: a subscriber's association to a catalog
stream.  `sid` is the `ReferenceField` to the `IStream`, modelled by its id;
`priv` is the source's `private` flag. -/
structure UserStream where
  sid : OID
  favorite : Bool := false
  priv : Bool := false
  recent : Nat := 0
  interruption_time : Nat := 0
deriving DecidableEq, Repr

/-- Status enum of `Subscriber` (`NOT_ACTIVE = 0, ACTIVE = 1, DELETED = 2`). -/
inductive Subscriber.Status where
  | NOT_ACTIVE
  | ACTIVE
  | DELETED
deriving DecidableEq, Repr

/-- The `Subscriber` document.  `max_devices_count` is an `IntField`, hence
an `Int`; `servers` holds references to `ServiceSettings` documents by id. -/
structure Subscriber where
  id : OID
  email : String
  first_name : String
  last_name : String
  password : String
  created_date : Nat := 0
  exp_date : Nat := 0
  status : Subscriber.Status := Subscriber.Status.NOT_ACTIVE
  country : String
  language : String
  servers : List OID := []
  devices : List Device := []
  max_devices_count : Int
  streams : List UserStream := []
deriving DecidableEq, Repr

/-- The explicit state an operation on a subscriber acts on: the in-memory
document, its persisted copy, the `IStream` catalog collection, and a count
of executed `save()` calls. -/
structure World where
  mem : Subscriber
  stored : Option Subscriber := none
  istreams : List IStream := []
  saves : Nat := 0
deriving DecidableEq, Repr

/-- `self.save()` (also reached from `self.devices.save()` and
`self.streams.save()`, which save the ancestor document): persist the
in-memory document. -/
def World.save (w : World) : World :=
  { w with stored := some w.mem, saves := w.saves + 1 }

namespace Subscriber

/-- `add_server`: append the server reference and save. -/
def add_server (w : World) (server : OID) : World :=
  World.save { w with mem := { w.mem with servers := w.mem.servers ++ [server] } }

/-- `add_device`: append and save only when the quota allows it.  The Python
function has no `return` statement, so its value is always `None`, modelled
by the second component being `none`. -/
def add_device (w : World) (device : Device) : World × Option Bool :=
  if (w.mem.devices.length : Int) < w.mem.max_devices_count then
    (World.save { w with mem := { w.mem with devices := w.mem.devices ++ [device] } }, none)
  else
    (w, none)

/-- `remove_device`: drop every device whose id equals `sid`, then save
(the save happens whether or not anything matched). -/
def remove_device (w : World) (sid : OID) : World :=
  World.save
    { w with mem := { w.mem with devices := w.mem.devices.filter (fun d => d.id != sid) } }

/-- The manifest entry contributed by one `UserStream` in
`generate_playlist`: the self-contained generator for `private` entries,
the device-bound generator (fed the subscriber id, password hash, device id
and load-balancer address) otherwise. -/
def playlist_entry (gpSelf : OID → Bool → String)
    (gpDevice : OID → String → String → String → String → Bool → String)
    (s : Subscriber) (did lb_server_host_and_port : String) (stream : UserStream) : String :=
  if stream.priv then gpSelf stream.sid false
  else gpDevice stream.sid (toString s.id) s.password did lb_server_host_and_port false

/-- `generate_playlist`: start from `"#EXTM3U\n"` and append one entry per
element of `streams`, in stored order. -/
def generate_playlist (gpSelf : OID → Bool → String)
    (gpDevice : OID → String → String → String → String → Bool → String)
    (s : Subscriber) (did lb_server_host_and_port : String) : String :=
  s.streams.foldl
    (fun result stream =>
      result ++ playlist_entry gpSelf gpDevice s did lb_server_host_and_port stream)
    "#EXTM3U\x0a"

/-- `add_official_stream`: append the given `UserStream` and save unless an
association with the same stream reference is already present. -/
def add_official_stream (w : World) (stream : UserStream) : World :=
  if (w.mem.streams.filter (fun us => us.sid == stream.sid)).isEmpty then
    World.save { w with mem := { w.mem with streams := w.mem.streams ++ [stream] } }
  else
    w

/-- `add_official_stream_by_id`: wrap the id into a fresh `UserStream`
(defaults: not favorite, not private) and delegate. -/
def add_official_stream_by_id (w : World) (oid : OID) : World :=
  add_official_stream w { sid := oid }

/-- `add_own_stream`: build a `private = True` association for the given
catalog stream, append and save unless one for the same reference exists. -/
def add_own_stream (w : World) (stream : IStream) : World :=
  if (w.mem.streams.filter (fun us => us.sid == stream.id)).isEmpty then
    World.save
      { w with mem :=
          { w.mem with streams := w.mem.streams ++ [{ sid := stream.id, priv := true }] } }
  else
    w

/-- `remove_official_stream`: drop every association whose reference matches
the given stream (the `private` flag is not consulted), then save.  The
argument is an `Option` because `remove_official_stream_by_id` passes the
result of a `first()` lookup, which can be `None`; `filter(sid=None)`
matches nothing. -/
def remove_official_stream (w : World) (stream : Option IStream) : World :=
  World.save
    { w with mem :=
        { w.mem with streams :=
            w.mem.streams.filter (fun us =>
              match stream with
              | some st => us.sid != st.id
              | none => true) } }

/-- `remove_official_stream_by_id`: look the stream up in the catalog and
delegate. -/
def remove_official_stream_by_id (w : World) (sid : OID) : World :=
  remove_official_stream w (w.istreams.find? (fun st => st.id == sid))

/-- `remove_own_stream_by_id`: look the id up in the catalog; delete the
backing catalog entity of every matching `private = True` association, drop
those associations, and save.  When the lookup misses, `filter(sid=None,
private=True)` matches nothing and only the save happens. -/
def remove_own_stream_by_id (w : World) (sid : OID) : World :=
  match w.istreams.find? (fun st => st.id == sid) with
  | none => World.save w
  | some st =>
    World.save
      { w with
        mem := { w.mem with
                 streams := w.mem.streams.filter (fun us => !(us.sid == st.id && us.priv)) }
        istreams :=
          (w.mem.streams.filter (fun us => us.sid == st.id && us.priv)).foldl
            (fun db us => db.filter (fun t => t.id != us.sid)) w.istreams }

/-- `remove_all_own_streams`: delete the backing catalog entity of every
`private = True` association, drop all those associations, and save. -/
def remove_all_own_streams (w : World) : World :=
  World.save
    { w with
      mem := { w.mem with streams := w.mem.streams.filter (fun us => !us.priv) }
      istreams :=
        (w.mem.streams.filter (fun us => us.priv)).foldl
          (fun db us => db.filter (fun t => t.id != us.sid)) w.istreams }

/-- `official_streams`: the `private = False` associations. -/
def official_streams (s : Subscriber) : List UserStream :=
  s.streams.filter (fun us => us.priv == false)

/-- `own_streams`: the `private = True` associations. -/
def own_streams (s : Subscriber) : List UserStream :=
  s.streams.filter (fun us => us.priv == true)

/-- `delete`: remove all own streams (which saves), then mark the in-memory
document `DELETED`.  The call to `Document.delete` is commented out in the
source, so the record itself is never removed from the store. -/
def delete (w : World) : World :=
  let w1 := remove_all_own_streams w
  { w1 with mem := { w1.mem with status := Subscriber.Status.DELETED } }

/-- `make_md5_hash_from_password`: `md5(password.encode()).hexdigest()`. -/
def make_md5_hash_from_password (password : String) : String :=
  String.mk (bytesToHex (md5bytes (utf8Encode password.data)))

/-- `generate_password_hash`: alias of `make_md5_hash_from_password`. -/
def generate_password_hash (password : String) : String :=
  make_md5_hash_from_password password

/-- `check_password_hash`: string equality with the freshly computed hash. -/
def check_password_hash (hash : String) (password : String) : Bool :=
  hash == generate_password_hash password

end Subscriber

set_option maxRecDepth 100000 in
example : Subscriber.make_md5_hash_from_password "abc" =
    "900150983cd24fb0d6963f7d28e17f72" := by decide

/-! ## Generic lemmas about the embedded definitions -/

/-- Concatenation of the manifest entries of a list of associations. -/
def manifest_entries (f : UserStream → String) : List UserStream → String
  | [] => ""
  | st :: rest => f st ++ manifest_entries f rest

lemma foldl_append_manifest (f : UserStream → String) :
    ∀ (l : List UserStream) (init : String),
      l.foldl (fun r st => r ++ f st) init = init ++ manifest_entries f l := by
  intro l
  induction l with
  | nil =>
    intro init
    simp [manifest_entries, String.append_empty]
  | cons st rest ih =>
    intro init
    simp only [List.foldl_cons, manifest_entries]
    rw [ih, String.append_assoc]

lemma length_toLEBytes (k : Nat) : ∀ n, (toLEBytes n k).length = k := by
  induction k with
  | zero => intro n; rfl
  | succ k ih => intro n; simp [toLEBytes, ih]

lemma toLEBytes_lt (k : Nat) : ∀ n, ∀ b ∈ toLEBytes n k, b < 256 := by
  induction k with
  | zero => intro n b hb; simp [toLEBytes] at hb
  | succ k ih =>
    intro n b hb
    simp only [toLEBytes, List.mem_cons] at hb
    rcases hb with h | h
    · subst h; exact Nat.mod_lt _ (by norm_num)
    · exact ih _ b h

lemma length_md5bytes (msg : List Nat) : (md5bytes msg).length = 16 := by
  simp [md5bytes, length_toLEBytes]

lemma md5bytes_lt (msg : List Nat) : ∀ b ∈ md5bytes msg, b < 256 := by
  intro b hb
  simp only [md5bytes, List.mem_append] at hb
  rcases hb with ((h | h) | h) | h <;> exact toLEBytes_lt 4 _ b h

lemma md5bytes_getD_lt (msg : List Nat) (n : Nat) : (md5bytes msg).getD n 0 < 256 := by
  by_cases h : n < (md5bytes msg).length
  · rw [List.getD_eq_getElem _ _ h]
    exact md5bytes_lt _ _ (List.getElem_mem h)
  · rw [List.getD_eq_default _ _ (Nat.le_of_not_lt h)]
    norm_num

lemma hexDigit_mem (n : Nat) : hexDigit n ∈ hexChars := by
  unfold hexDigit
  have h : n % 16 < hexChars.length := by
    rw [show hexChars.length = 16 from rfl]
    exact Nat.mod_lt _ (by norm_num)
  rw [List.getD_eq_getElem _ _ h]
  exact List.getElem_mem h

lemma bytesToHex_length : ∀ l : List Nat, (bytesToHex l).length = 2 * l.length := by
  intro l
  induction l with
  | nil => rfl
  | cons b rest ih => simp [bytesToHex, ih]; ring

lemma bytesToHex_mem : ∀ (l : List Nat), ∀ c ∈ bytesToHex l, c ∈ hexChars := by
  intro l
  induction l with
  | nil => intro c hc; simp [bytesToHex] at hc
  | cons b rest ih =>
    intro c hc
    simp only [bytesToHex, List.mem_cons] at hc
    rcases hc with h | h | h
    · subst h; exact hexDigit_mem _
    · subst h; exact hexDigit_mem _
    · exact ih c h

lemma char_toNat_ofNat (n : Nat) (h : n.isValidChar) : (Char.ofNat n).toNat = n := by
  unfold Char.ofNat
  rw [dif_pos h]
  simp [Char.ofNatAux, Char.toNat, UInt32.toNat, UInt32.ofNatCore]

/-! ## C1: manifest generation -/

/-- C1: for every subscriber, device id and load-balancer address (and any
manifest-entry generators), `generate_playlist` is the fixed header
`"#EXTM3U\n"` followed by the concatenation of exactly one manifest entry
per element of `streams` in stored order, where a `private = true` entry
uses the self-contained generator of the referenced stream and a
`private = false` entry uses the device-bound generator applied to the
subscriber's id, the subscriber's password hash, the requested device id
and the load-balancer address. -/
theorem C1_generate_playlist (gpSelf : OID → Bool → String)
    (gpDevice : OID → String → String → String → String → Bool → String)
    (s : Subscriber) (did lb_server_host_and_port : String) :
    Subscriber.generate_playlist gpSelf gpDevice s did lb_server_host_and_port =
      "#EXTM3U\x0a" ++
        manifest_entries
          (Subscriber.playlist_entry gpSelf gpDevice s did lb_server_host_and_port)
          s.streams := by
  unfold Subscriber.generate_playlist
  exact foldl_append_manifest _ s.streams _

/-! ## C7: the password hasher -/

/-- C7 (amended): `check_password_hash h p` decides `h =
generate_password_hash p`; every password verifies against its own hash;
the hash is a 32-character string of lowercase hexadecimal digits (and, as
a Lean function, deterministic).  The original claim's remaining clause —
distinct passwords never cross-verify — is refuted by
`C7_collision_counterexample`. -/
theorem C7_password_hash_contract (hash password : String) :
    (Subscriber.check_password_hash hash password =
      decide (hash = Subscriber.generate_password_hash password)) ∧
    Subscriber.check_password_hash (Subscriber.generate_password_hash password) password
      = true ∧
    (Subscriber.generate_password_hash password).length = 32 ∧
    (Subscriber.generate_password_hash password).data.all
      (fun c => hexChars.contains c) = true := by
  refine ⟨?_, ?_, ?_, ?_⟩
  · by_cases h : hash = Subscriber.generate_password_hash password <;>
      simp [Subscriber.check_password_hash, h]
  · simp [Subscriber.check_password_hash]
  · simp [Subscriber.generate_password_hash, Subscriber.make_md5_hash_from_password,
      String.length, bytesToHex_length, length_md5bytes]
  · simp only [List.all_eq_true]
    intro c hc
    simp only [Subscriber.generate_password_hash,
      Subscriber.make_md5_hash_from_password] at hc
    simpa using bytesToHex_mem _ c hc

/-- A string of 33 ASCII characters, one per coordinate. -/
def asciiStr (v : Fin 33 → Fin 128) : String :=
  String.mk (List.ofFn (fun i => Char.ofNat (v i)))

lemma asciiStr_inj (v u : Fin 33 → Fin 128) (h : asciiStr v = asciiStr u) : v = u := by
  have hd : List.ofFn (fun i : Fin 33 => Char.ofNat ((v i : Nat))) =
      List.ofFn (fun i : Fin 33 => Char.ofNat ((u i : Nat))) := congrArg String.data h
  have hfun := List.ofFn_inj.mp hd
  funext i
  have hchar := congrFun hfun i
  have hv : ((v i : Nat)).isValidChar := Or.inl (lt_trans (v i).isLt (by norm_num))
  have hu : ((u i : Nat)).isValidChar := Or.inl (lt_trans (u i).isLt (by norm_num))
  have : ((v i : Nat)) = ((u i : Nat)) := by
    rw [← char_toNat_ofNat _ hv, ← char_toNat_ofNat _ hu, hchar]
  exact Fin.ext this

/-- The 16-byte digest of a password, as a function into `Fin 256`. -/
def digestVec (p : String) : Fin 16 → Fin 256 := fun i =>
  ⟨(md5bytes (utf8Encode p.data)).getD i.val 0, md5bytes_getD_lt _ _⟩

lemma digestVec_eq_imp (p q : String) (h : digestVec p = digestVec q) :
    Subscriber.generate_password_hash p = Subscriber.generate_password_hash q := by
  have hb : md5bytes (utf8Encode p.data) = md5bytes (utf8Encode q.data) := by
    apply List.ext_getElem (by rw [length_md5bytes, length_md5bytes])
    intro n h1 h2
    have hn : n < 16 := by rwa [length_md5bytes] at h1
    have hv := congrArg Fin.val (congrFun h ⟨n, hn⟩)
    simp only [digestVec] at hv
    rw [← List.getD_eq_getElem _ _ h1, ← List.getD_eq_getElem _ _ h2]
    exact hv
  simp [Subscriber.generate_password_hash, Subscriber.make_md5_hash_from_password, hb]

/-- C7 (counterexample to the claim as stated): it is not the case that
distinct passwords never verify against each other's hash — the digest
space has `2^128` elements while there are `128^33` ASCII strings of
length 33, so two distinct passwords share a hash (pigeonhole), and
`check_password_hash` accepts either password against that hash. -/
theorem C7_collision_counterexample :
    ¬ (∀ p1 p2 : String, p1 ≠ p2 →
        Subscriber.check_password_hash (Subscriber.generate_password_hash p1) p2
          = false) := by
  intro hall
  have hcard : Fintype.card (Fin 16 → Fin 256) < Fintype.card (Fin 33 → Fin 128) := by
    simp only [Fintype.card_fun, Fintype.card_fin]
    norm_num
  obtain ⟨v, u, hvu, heq⟩ :=
    Fintype.exists_ne_map_eq_of_card_lt (fun v => digestVec (asciiStr v)) hcard
  have hne : asciiStr v ≠ asciiStr u := fun hs => hvu (asciiStr_inj v u hs)
  have hgen := digestVec_eq_imp _ _ heq
  have hfalse := hall (asciiStr v) (asciiStr u) hne
  simp [Subscriber.check_password_hash, hgen] at hfalse

/-! ## Concrete sample states -/

/-- A concrete subscriber (`md5("password")` as the stored hash). -/
def subA : Subscriber :=
  { id := 1, email := "user@example.com", first_name := "Ada", last_name := "Lovelace",
    password := "5f4dcc3b5aa765d61d8327deb882cf99", country := "US", language := "en",
    max_devices_count := 2 }

/-- A concrete device. -/
def devA : Device := { id := 100 }

/-- A concrete official-stream association. -/
def usA : UserStream := { sid := 5 }

/-- A concrete catalog stream. -/
def stA : IStream := { id := 9 }

/-- A world holding `subA`, not yet persisted, with an empty catalog. -/
def wA : World := { mem := subA }

/-! ## C2 and C8: add_device -/

/-- C2 (amended): `add_device` appends the device to `devices` and persists
the subscriber exactly when the current device count is strictly below
`max_devices_count`, and otherwise is a no-op; the operation returns
Python's `None` (modelled `none`), not a boolean success result. -/
theorem C2_add_device_behavior (w : World) (d : Device) :
    ((Subscriber.add_device w d).1.mem =
      if (w.mem.devices.length : Int) < w.mem.max_devices_count
      then { w.mem with devices := w.mem.devices ++ [d] } else w.mem) ∧
    ((Subscriber.add_device w d).1.stored =
      if (w.mem.devices.length : Int) < w.mem.max_devices_count
      then some { w.mem with devices := w.mem.devices ++ [d] } else w.stored) ∧
    ((Subscriber.add_device w d).1.saves =
      if (w.mem.devices.length : Int) < w.mem.max_devices_count
      then w.saves + 1 else w.saves) ∧
    ((Subscriber.add_device w d).1.istreams = w.istreams) ∧
    (Subscriber.add_device w d).2 = none := by
  unfold Subscriber.add_device World.save
  by_cases h : (w.mem.devices.length : Int) < w.mem.max_devices_count <;> simp [h]

/-- C2 (counterexample to the claim as stated): at a concrete subscriber
with quota room the call succeeds — the device is appended — yet the value
returned is `none` (Python `None`): no boolean result reports the
success. -/
theorem C2_no_boolean_result :
    (Subscriber.add_device wA devA).1.mem.devices = [devA] ∧
    (Subscriber.add_device wA devA).2 = none ∧
    ((Subscriber.add_device wA devA).2 == some true) = false := by decide

/-- C8 (counterexample to the claim as stated): from a starting state that
already exceeds the quota (3 devices, `max_devices_count = 2`),
`add_device` leaves the count at 3, above the quota — the bound does not
hold for every starting state. -/
theorem C8_over_quota_counterexample :
    ¬ (((Subscriber.add_device
          { mem := { subA with devices := [{ id := 11 }, { id := 12 }, { id := 13 }] } }
          devA).1.mem.devices.length : Int) ≤
        (Subscriber.add_device
          { mem := { subA with devices := [{ id := 11 }, { id := 12 }, { id := 13 }] } }
          devA).1.mem.max_devices_count) := by decide

/-- C8 (amended): when the device count is within the quota before the
call, it is within the quota after any `add_device` call (the source only
preserves the bound, it cannot restore it for states already above it). -/
theorem C8_add_device_quota (w : World) (d : Device)
    (h : (w.mem.devices.length : Int) ≤ w.mem.max_devices_count) :
    ((Subscriber.add_device w d).1.mem.devices.length : Int) ≤
      (Subscriber.add_device w d).1.mem.max_devices_count := by
  unfold Subscriber.add_device World.save
  by_cases hc : (w.mem.devices.length : Int) < w.mem.max_devices_count
  · simp only [hc, if_true]
    simp [List.length_append]
    omega
  · simp only [hc, if_false]
    exact h

/-- C8 witness: the amended theorem applied at a concrete subscriber. -/
theorem C8_add_device_quota_witness :
    ((Subscriber.add_device wA devA).1.mem.devices.length : Int) ≤
      (Subscriber.add_device wA devA).1.mem.max_devices_count :=
  C8_add_device_quota wA devA (by decide)

/-! ## C3: idempotent stream adds -/

lemma add_official_stream_twice (w : World) (us : UserStream) :
    Subscriber.add_official_stream (Subscriber.add_official_stream w us) us =
      Subscriber.add_official_stream w us := by
  unfold Subscriber.add_official_stream
  by_cases h : (w.mem.streams.filter (fun x => x.sid == us.sid)).isEmpty = true <;>
    simp [h, World.save, List.filter_append]

lemma add_own_stream_twice (w : World) (st : IStream) :
    Subscriber.add_own_stream (Subscriber.add_own_stream w st) st =
      Subscriber.add_own_stream w st := by
  unfold Subscriber.add_own_stream
  by_cases h : (w.mem.streams.filter (fun x => x.sid == st.id)).isEmpty = true <;>
    simp [h, World.save, List.filter_append]

lemma add_official_stream_count (w : World) (us : UserStream)
    (h : (w.mem.streams.filter (fun x => x.sid == us.sid)).length ≤ 1) :
    ((Subscriber.add_official_stream w us).mem.streams.filter
      (fun x => x.sid == us.sid)).length = 1 := by
  unfold Subscriber.add_official_stream
  by_cases hc : (w.mem.streams.filter (fun x => x.sid == us.sid)).isEmpty = true
  · have he : w.mem.streams.filter (fun x => x.sid == us.sid) = [] :=
      List.isEmpty_iff.mp hc
    simp [hc, World.save, List.filter_append, he]
  · have h1 : w.mem.streams.filter (fun x => x.sid == us.sid) ≠ [] := by
      simpa [List.isEmpty_iff] using hc
    have h2 := List.length_pos.mpr h1
    rw [if_neg hc]
    omega

lemma add_own_stream_count (w : World) (st : IStream)
    (h : (w.mem.streams.filter (fun x => x.sid == st.id)).length ≤ 1) :
    ((Subscriber.add_own_stream w st).mem.streams.filter
      (fun x => x.sid == st.id)).length = 1 := by
  unfold Subscriber.add_own_stream
  by_cases hc : (w.mem.streams.filter (fun x => x.sid == st.id)).isEmpty = true
  · have he : w.mem.streams.filter (fun x => x.sid == st.id) = [] :=
      List.isEmpty_iff.mp hc
    simp [hc, World.save, List.filter_append, he]
  · have h1 : w.mem.streams.filter (fun x => x.sid == st.id) ≠ [] := by
      simpa [List.isEmpty_iff] using hc
    have h2 := List.length_pos.mpr h1
    rw [if_neg hc]
    omega

/-- C3: `add_official_stream` and `add_own_stream` are idempotent — the
second call with the same reference returns the state of the first call
unchanged (so it neither appends nor persists), and, starting from a
subscriber satisfying the spec's uniqueness invariant (at most one
association per reference), two calls leave exactly one association for
that reference. -/
theorem C3_add_stream_idempotent (w : World) (us : UserStream) (st : IStream)
    (hus : (w.mem.streams.filter (fun x => x.sid == us.sid)).length ≤ 1)
    (hst : (w.mem.streams.filter (fun x => x.sid == st.id)).length ≤ 1) :
    (Subscriber.add_official_stream (Subscriber.add_official_stream w us) us =
      Subscriber.add_official_stream w us) ∧
    (((Subscriber.add_official_stream (Subscriber.add_official_stream w us) us).mem.streams.filter
      (fun x => x.sid == us.sid)).length = 1) ∧
    (Subscriber.add_own_stream (Subscriber.add_own_stream w st) st =
      Subscriber.add_own_stream w st) ∧
    (((Subscriber.add_own_stream (Subscriber.add_own_stream w st) st).mem.streams.filter
      (fun x => x.sid == st.id)).length = 1) := by
  refine ⟨add_official_stream_twice w us, ?_, add_own_stream_twice w st, ?_⟩
  · rw [add_official_stream_twice w us]
    exact add_official_stream_count w us hus
  · rw [add_own_stream_twice w st]
    exact add_own_stream_count w st hst

/-- C3 witness: the idempotence theorem applied at a concrete subscriber
with no prior associations. -/
theorem C3_add_stream_idempotent_witness :
    (Subscriber.add_official_stream (Subscriber.add_official_stream wA usA) usA =
      Subscriber.add_official_stream wA usA) ∧
    (((Subscriber.add_official_stream (Subscriber.add_official_stream wA usA) usA).mem.streams.filter
      (fun x => x.sid == usA.sid)).length = 1) ∧
    (Subscriber.add_own_stream (Subscriber.add_own_stream wA stA) stA =
      Subscriber.add_own_stream wA stA) ∧
    (((Subscriber.add_own_stream (Subscriber.add_own_stream wA stA) stA).mem.streams.filter
      (fun x => x.sid == stA.id)).length = 1) :=
  C3_add_stream_idempotent wA usA stA (by decide) (by decide)

/-! ## C4, C5, C6: stream removal -/

lemma foldl_delete_istreams_mem :
    ∀ (l : List UserStream) (db : List IStream) (t : IStream),
      t ∈ l.foldl (fun db2 us => db2.filter (fun x => x.id != us.sid)) db →
      t ∈ db ∧ ∀ us ∈ l, t.id ≠ us.sid := by
  intro l
  induction l with
  | nil =>
    intro db t ht
    exact ⟨ht, by simp⟩
  | cons us rest ih =>
    intro db t ht
    simp only [List.foldl_cons] at ht
    obtain ⟨hmem, hrest⟩ := ih _ t ht
    obtain ⟨hdb, hne⟩ := List.mem_filter.mp hmem
    refine ⟨hdb, ?_⟩
    intro us2 hus2
    rcases List.mem_cons.mp hus2 with h | h
    · subst h
      simpa using hne
    · exact hrest us2 h

lemma foldl_delete_istreams_same (sid : OID) :
    ∀ (l : List UserStream) (db : List IStream),
      (∀ us ∈ l, us.sid = sid) →
      l.foldl (fun db2 us => db2.filter (fun x => x.id != us.sid)) db =
        if l.isEmpty then db else db.filter (fun x => x.id != sid) := by
  intro l
  induction l with
  | nil =>
    intro db hall
    rfl
  | cons us rest ih =>
    intro db hall
    have hus : us.sid = sid := hall us (by simp)
    simp only [List.foldl_cons, List.isEmpty_cons, Bool.false_eq_true, if_false]
    rw [hus, ih _ (fun u hu => hall u (List.mem_cons_of_mem _ hu))]
    cases hr : rest.isEmpty
    · simp only [Bool.false_eq_true, if_false, List.filter_filter, Bool.and_self]
    · simp only [if_true]

/-- C4 (amended): when the catalog resolves the id (the lookup
`IStream.objects(id=sid).first()` finds a stream), `remove_own_stream_by_id`
leaves the streams collection with every `private = true` association for
that id removed and everything else — including `private = false`
associations for the same id — in place, and deletes the backing catalog
entity exactly when at least one such private association existed.  (The
counterexample shows the zero-private-associations guarantee fails when the
id is dangling, i.e. resolves to no catalog entity.) -/
theorem C4_remove_own_stream (w : World) (sid : OID) (st : IStream)
    (hfind : w.istreams.find? (fun t => t.id == sid) = some st) :
    ((Subscriber.remove_own_stream_by_id w sid).mem.streams =
      w.mem.streams.filter (fun us => !(us.sid == sid && us.priv))) ∧
    ((Subscriber.remove_own_stream_by_id w sid).istreams =
      if (w.mem.streams.filter (fun us => us.sid == sid && us.priv)).isEmpty
      then w.istreams
      else w.istreams.filter (fun t => t.id != sid)) := by
  have hstid : st.id = sid := by
    have h2 := List.find?_some hfind
    simpa using h2
  subst hstid
  unfold Subscriber.remove_own_stream_by_id
  rw [hfind]
  constructor
  · simp [World.save]
  · simp only [World.save]
    refine foldl_delete_istreams_same st.id _ w.istreams (fun us hus => ?_)
    have h2 := (List.mem_filter.mp hus).2
    simp only [Bool.and_eq_true, beq_iff_eq] at h2
    exact h2.1

/-- A world holding one private and one official association for catalog
stream 9, with stream 9 present in the catalog. -/
def wC4 : World :=
  { mem := { subA with streams := [{ sid := 9, priv := true }, { sid := 9 }] },
    istreams := [stA] }

/-- C4 witness: the amended theorem at `wC4`. -/
theorem C4_remove_own_stream_witness :
    ((Subscriber.remove_own_stream_by_id wC4 9).mem.streams =
      wC4.mem.streams.filter (fun us => !(us.sid == 9 && us.priv))) ∧
    ((Subscriber.remove_own_stream_by_id wC4 9).istreams =
      if (wC4.mem.streams.filter (fun us => us.sid == 9 && us.priv)).isEmpty
      then wC4.istreams
      else wC4.istreams.filter (fun t => t.id != 9)) :=
  C4_remove_own_stream wC4 9 stA (by decide)

/-- C4 (counterexample to the claim as stated): with a dangling reference —
the subscriber holds a `private = true` association for id 7 but the
catalog has no stream with id 7 — `remove_own_stream_by_id 7` removes
nothing, so an association with `private = true` referencing 7 remains. -/
theorem C4_dangling_reference_counterexample :
    ((Subscriber.remove_own_stream_by_id
        { mem := { subA with streams := [{ sid := 7, priv := true }] } } 7).mem.streams.filter
      (fun us => us.sid == 7 && us.priv)).length = 1 := by decide

/-- C5: `delete` removes every `private = true` association and its backing
catalog entity, sets the in-memory status to `DELETED`, and leaves
everything else unchanged: the record still exists in the store, and the
official (`private = false`) associations, the devices, the server
references and the identity fields are exactly as before. -/
theorem C5_delete_soft (w : World) :
    ((Subscriber.delete w).mem.status = Subscriber.Status.DELETED) ∧
    ((Subscriber.delete w).mem.streams = w.mem.streams.filter (fun us => !us.priv)) ∧
    ((Subscriber.delete w).istreams.filter
        (fun t => (w.mem.streams.filter (fun us => us.priv)).any (fun us => us.sid == t.id))
      = []) ∧
    ((Subscriber.delete w).mem.devices = w.mem.devices) ∧
    ((Subscriber.delete w).mem.servers = w.mem.servers) ∧
    ((Subscriber.delete w).mem.id = w.mem.id) ∧
    ((Subscriber.delete w).mem.email = w.mem.email) ∧
    ((Subscriber.delete w).mem.password = w.mem.password) ∧
    ((Subscriber.delete w).stored.isSome = true) := by
  unfold Subscriber.delete Subscriber.remove_all_own_streams World.save
  refine ⟨rfl, rfl, ?_, rfl, rfl, rfl, rfl, rfl, rfl⟩
  apply List.filter_eq_nil_iff.mpr
  intro t ht
  simp only [List.any_eq_true, not_exists, not_and]
  intro us hus
  have hne := (foldl_delete_istreams_mem _ _ t ht).2 us hus
  simp only [beq_iff_eq]
  exact fun he => hne he.symm

/-- C6: `remove_official_stream` removes every `UserStream` whose reference
matches the given catalog stream regardless of the `private` flag — no
association for that reference, private or not, survives — and keeps all
associations for other references (in order). -/
theorem C6_remove_official_stream_all (w : World) (stream : IStream) :
    ((Subscriber.remove_official_stream w (some stream)).mem.streams =
      w.mem.streams.filter (fun us => us.sid != stream.id)) ∧
    ((Subscriber.remove_official_stream w (some stream)).mem.streams.filter
      (fun us => us.sid == stream.id)) = [] := by
  unfold Subscriber.remove_official_stream
  constructor
  · simp [World.save]
  · simp only [World.save]
    apply List.filter_eq_nil_iff.mpr
    intro us hus
    have h2 := (List.mem_filter.mp hus).2
    simp only [bne_iff_ne, ne_eq] at h2
    simp [h2]

/-! ## C9: failed mutations -/

/-- C9 (amended): `add_device` rejected by the quota changes nothing — no
append, no save.  `remove_device` with an id matching no device raises no
error and leaves the in-memory subscriber (its devices in particular)
unchanged, but still performs a save, overwriting the persisted document
with the in-memory one — so the persisted state is unchanged only when it
already agreed with the in-memory state. -/
theorem C9_failed_mutation_frame (w : World) (sid : OID) (d : Device)
    (hnone : w.mem.devices.filter (fun dev => dev.id == sid) = [])
    (hfull : ¬ ((w.mem.devices.length : Int) < w.mem.max_devices_count)) :
    ((Subscriber.remove_device w sid).mem = w.mem) ∧
    ((Subscriber.remove_device w sid).stored = some w.mem) ∧
    ((Subscriber.remove_device w sid).saves = w.saves + 1) ∧
    (Subscriber.add_device w d = (w, none)) := by
  have hdev : w.mem.devices.filter (fun dev => dev.id != sid) = w.mem.devices := by
    apply List.filter_eq_self.mpr
    intro dev hdev
    have h2 := List.filter_eq_nil_iff.mp hnone dev hdev
    simpa using h2
  unfold Subscriber.remove_device Subscriber.add_device World.save
  rw [if_neg hfull, hdev]
  exact ⟨rfl, rfl, rfl, rfl⟩

/-- A world whose in-memory state has diverged from its persisted copy:
the quota is zero and `delete` has set the in-memory status to `DELETED`
without saving it. -/
def wC9 : World :=
  Subscriber.delete { mem := { subA with max_devices_count := 0 }, stored := some subA }

/-- C9 witness: the amended theorem at `wC9` with an id matching nothing. -/
theorem C9_failed_mutation_frame_witness :
    ((Subscriber.remove_device wC9 42).mem = wC9.mem) ∧
    ((Subscriber.remove_device wC9 42).stored = some wC9.mem) ∧
    ((Subscriber.remove_device wC9 42).saves = wC9.saves + 1) ∧
    (Subscriber.add_device wC9 devA = (wC9, none)) :=
  C9_failed_mutation_frame wC9 42 devA (by decide) (by decide)

/-- C9 (counterexample to the claim as stated): in the reachable state
`wC9` — reached by `delete`, whose `status = DELETED` assignment is not yet
persisted — `remove_device` with an id matching no device leaves the
devices collection as it was yet still saves, changing the persisted
subscriber state (its stored status becomes `DELETED`). -/
theorem C9_persisted_change_counterexample :
    ((Subscriber.remove_device wC9 42).mem.devices = wC9.mem.devices) ∧
    (((Subscriber.remove_device wC9 42).stored == wC9.stored) = false) := by decide

/-! ## C10: delete persists only the pre-status document -/

/-- C10: `delete` performs exactly one save — the streams-collection save
inside `remove_all_own_streams` — and that save writes the document as it
stands before the status assignment: the persisted copy carries the
pre-call status while only the in-memory object is `DELETED`; this
operation writes no `DELETED` status to the store. -/
theorem C10_delete_persists_before_status (w : World) :
    ((Subscriber.delete w).saves = w.saves + 1) ∧
    ((Subscriber.delete w).stored =
      some { w.mem with streams := w.mem.streams.filter (fun us => !us.priv) }) ∧
    ((Subscriber.delete w).mem.status = Subscriber.Status.DELETED) := by
  unfold Subscriber.delete Subscriber.remove_all_own_streams World.save
  exact ⟨rfl, rfl, rfl⟩

example : (Subscriber.add_official_stream_by_id
    { mem := { id := 1, email := "e", first_name := "f", last_name := "l",
               password := "p", country := "US", language := "en",
               max_devices_count := 10 } } 5).mem.streams =
    [{ sid := 5 }] := by decide
